import Mathlib

/-
Verification of the natural-language specification of `lmdo` against the
source of `src/lmdo/cmds/lm/lambda.py` (class `Lambda`).

The module is embedded shallowly:

* Remote AWS state is a `World` carrying the remote function table and
  environment switches (SDK outage, zip success, upload success, ...).
* Every operation returns a trace of `Event`s (the remote API calls it makes,
  plus log lines), the resulting `World`, and an `Except PyErr` value that
  models Python control flow: `Except.error` is an uncaught Python exception
  propagating to the caller.
* Python locals that can be referenced while unbound are modelled explicitly:
  referencing the unset `response` local after a swallowed exception yields
  `PyErr.unboundLocal "response"`, exactly where CPython would raise
  `UnboundLocalError`.
* The invalid-syntax guards `if !x` in the source (lines 42, 53, 201) are read
  as `if not x` (skip when absent), following the stated intent.

Collaborators whose source is not part of `src/` (Oprint, S3, IAM, the zipper
utility, lmdo.config constants, AWSBase) are modelled from the spec; each such
definition says so in its doc comment.
-/

namespace Lmdo

/-- Exceptions raised by the modelled AWS SDK (boto3) client calls. -/
inductive SdkErr
  | resourceNotFound
  | resourceConflict
  | serviceError
deriving DecidableEq, Repr

/-- The log message rendered for an SDK exception when it is passed to the
error logger. -/
def SdkErr.message : SdkErr → String
  | SdkErr.resourceNotFound => "ResourceNotFoundException"
  | SdkErr.resourceConflict => "ResourceConflictException"
  | SdkErr.serviceError => "ServiceException"

/-- Python exceptions that escape the `Lambda` methods themselves. -/
inductive PyErr
  | unboundLocal (var : String)
  | attributeError (msg : String)
  | typeError (msg : String)
  | ioError (msg : String)
  | osError (msg : String)
deriving DecidableEq, Repr

/-- The second argument of `S3.upload_file` at the call site in
`Lambda.process` (source line 227): the source passes the attribute
`self.get_zip_name` without calling it, so the argument is the bound method
object, not a string key. -/
inductive S3KeyArg
  | str (s : String)
  | boundMethod
deriving DecidableEq, Repr

/-- Observable actions: remote API calls, local filesystem actions, and log
lines, in execution order. -/
inductive Event
  | clientAddPermission (functionName statementId principal : String)
  | clientRemovePermission (functionName statementId : String)
  | clientCreateFunction (functionName : String)
  | clientDeleteFunction (functionName : String)
  | clientInvoke (functionName : String)
  | clientListFunctions
  | clientUpdateFunctionCode (functionName bucket key : String)
  | clientGetFunction (functionName : String)
  | iamCreateRole (roleName : String)
  | iamDeleteRole (role : String)
  | s3UploadFile (bucket : String) (key : S3KeyArg) (path : String)
  | localZip (target : String)
  | localRemoveZip (target : String)
  | logInfo (msg : String)
  | logErr (msg : String)
deriving DecidableEq, Repr

/-- Remote API calls (Lambda / IAM / S3), as opposed to local filesystem
actions and log lines. -/
def Event.isRemoteCall : Event → Bool
  | Event.clientAddPermission _ _ _ => true
  | Event.clientRemovePermission _ _ => true
  | Event.clientCreateFunction _ => true
  | Event.clientDeleteFunction _ => true
  | Event.clientInvoke _ => true
  | Event.clientListFunctions => true
  | Event.clientUpdateFunctionCode _ _ _ => true
  | Event.clientGetFunction _ => true
  | Event.iamCreateRole _ => true
  | Event.iamDeleteRole _ => true
  | Event.s3UploadFile _ _ _ => true
  | _ => false

def Event.isClientCreateFunction : Event → Bool
  | Event.clientCreateFunction _ => true
  | _ => false

def Event.isClientUpdateFunctionCode : Event → Bool
  | Event.clientUpdateFunctionCode _ _ _ => true
  | _ => false

def Event.isClientDeleteFunction : Event → Bool
  | Event.clientDeleteFunction _ => true
  | _ => false

def Event.isIamCreateRole : Event → Bool
  | Event.iamCreateRole _ => true
  | _ => false

def Event.isIamDeleteRole : Event → Bool
  | Event.iamDeleteRole _ => true
  | _ => false

def Event.isS3Upload : Event → Bool
  | Event.s3UploadFile _ _ _ => true
  | _ => false

/-- An `s3UploadFile` call whose key argument is an actual string. -/
def Event.isS3UploadWithStringKey : Event → Bool
  | Event.s3UploadFile _ (S3KeyArg.str _) _ => true
  | _ => false

/-- The remote (AWS-side) record of one deployed function: the subset of
metadata the source consumes (`Configuration.Role`). -/
structure RemoteFunction where
  role : String
deriving DecidableEq, Repr

/-- Environment state: the remote function table keyed by the FunctionName
string the client was given, plus switches driving the modelled
collaborators. -/
structure World where
  remote : List (String × RemoteFunction)
  sdkDown : Bool
  zipOk : String → Bool
  uploadOk : Bool
  removeRaises : Bool
  policyFiles : String → Option String

/-- `Configuration` sub-object of a `get_function` response. -/
structure FnConfiguration where
  role : String
deriving DecidableEq, Repr

/-- Response of the client `get_function` call. -/
structure GetFunctionResponse where
  configuration : Option FnConfiguration
deriving DecidableEq, Repr

/-- Response of the client `add_permission` call. -/
structure AddPermissionResponse where
  statement : Option String
deriving DecidableEq, Repr

/-- Response of the client `create_function` call. -/
structure CreateFunctionResponse where
  functionName : String
deriving DecidableEq, Repr

/-- Response of the client `update_function_code` call. -/
structure UpdateFunctionCodeResponse where
  functionName : String
deriving DecidableEq, Repr

/-- Response of the client `list_functions` call. -/
structure ListFunctionsResponse where
  functions : List String
deriving DecidableEq, Repr

/-- One configured function definition (one entry of the `Lambda`
configuration list, spec section 6); `none` models an absent key, as returned
by `dict.get`. -/
structure FunctionSpec where
  FunctionName : String
  S3Bucket : String
  Handler : String
  MemorySize : Option Nat
  Runtime : Option String
  Timeout : Option Nat
  VpcConfig : Option String
  EnvironmentVariables : Option (List (String × String))
  Role : Option String
  RolePolicyDocument : Option String
deriving DecidableEq, Repr

/-- Modelled from the spec: the implicit global configuration mapping
(`self._config`); only the keys the source reads are kept
(`Lambda`, `Service`). -/
structure Config where
  lambdaSpecs : Option (List FunctionSpec)
  service : Option String
deriving DecidableEq, Repr

/-- Modelled from the spec: the `AWSBase` credential/session base
(src does not include `lmdo/cmds/aws_base.py`); `nameId` is the project
identity returned by `get_name_id`, used as the name-spacing prefix. -/
structure Ctx where
  nameId : String
  config : Config
deriving DecidableEq, Repr

/-- Modelled from the spec: the temporary directory constant `TMP_DIR` of
`lmdo.config` (file not under src/); the concrete value is a placeholder and
no claim depends on it. -/
def TMP_DIR : String := "/tmp/"

/-- Modelled from the spec: default memory size of `lmdo.config`; placeholder
value, applied when the spec omits `MemorySize`. -/
def LAMBDA_MEMORY_SIZE : Nat := 128

/-- Modelled from the spec: default runtime of `lmdo.config`; placeholder
value. -/
def LAMBDA_RUNTIME : String := "python2.7"

/-- Modelled from the spec: default timeout of `lmdo.config`; placeholder
value. -/
def LAMBDA_TIMEOUT : Nat := 180

/-- Python truthiness of an optional string (`None` and `''` are falsy). -/
def pyTruthyOptStr : Option String → Bool
  | none => false
  | some s => !s.isEmpty

/-- Python `x or default` for an optional number (`None` and `0` are falsy). -/
def pyOrNat : Option Nat → Nat → Nat
  | none, d => d
  | some 0, d => d
  | some n, _ => n

/-- Python `x or default` for an optional string. -/
def pyOrStr : Option String → String → String
  | none, d => d
  | some s, d => if s.isEmpty then d else s

/-- Python `str(x)` of an optional string, as `format` renders it
(`None` prints as `"None"`). -/
def pyStrOpt : Option String → String
  | none => "None"
  | some s => s

/-- Result of running a piece of the module: the events it performed, the
world afterwards, and either a returned value or an uncaught Python
exception. -/
abbrev Res (α : Type) := List Event × World × Except PyErr α

instance {ε α : Type} [DecidableEq ε] [DecidableEq α] : DecidableEq (Except ε α) := fun x y =>
  match x, y with
  | Except.ok a, Except.ok b =>
    if h : a = b then isTrue (by rw [h])
    else isFalse (by intro hh; cases hh; exact h rfl)
  | Except.ok _, Except.error _ => isFalse (fun hh => Except.noConfusion hh)
  | Except.error _, Except.ok _ => isFalse (fun hh => Except.noConfusion hh)
  | Except.error a, Except.error b =>
    if h : a = b then isTrue (by rw [h])
    else isFalse (by intro hh; cases hh; exact h rfl)

def resEvents {α : Type} (r : Res α) : List Event := r.1

def resWorld {α : Type} (r : Res α) : World := r.2.1

def resVal {α : Type} (r : Res α) : Except PyErr α := r.2.2

/- ------------------------------------------------------------------
Modelled boto3 Lambda client. The client is an external collaborator (spec
section 1 puts the AWS SDK out of scope); it is modelled abstractly: a call
raises `serviceError` when the SDK is down, raises `resourceNotFound` /
`resourceConflict` according to the remote table, and otherwise succeeds,
mutating the table for create/delete. Every call records one event carrying
exactly the arguments the source passed.
------------------------------------------------------------------ -/

def World.lookupFn (w : World) (functionName : String) : Option RemoteFunction :=
  w.remote.lookup functionName

def Client.get_function (w : World) (functionName : String) :
    List Event × World × Except SdkErr GetFunctionResponse :=
  ([Event.clientGetFunction functionName], w,
    if w.sdkDown then Except.error SdkErr.serviceError
    else match w.lookupFn functionName with
      | some fn => Except.ok { configuration := some { role := fn.role } }
      | none => Except.error SdkErr.resourceNotFound)

def Client.create_function (w : World) (functionName role : String) :
    List Event × World × Except SdkErr CreateFunctionResponse :=
  ([Event.clientCreateFunction functionName],
   if w.sdkDown then w
   else match w.lookupFn functionName with
     | some _ => w
     | none => { w with remote := (functionName, { role := role }) :: w.remote },
   if w.sdkDown then Except.error SdkErr.serviceError
   else match w.lookupFn functionName with
     | some _ => Except.error SdkErr.resourceConflict
     | none => Except.ok { functionName := functionName })

def Client.delete_function (w : World) (functionName : String) :
    List Event × World × Except SdkErr Unit :=
  ([Event.clientDeleteFunction functionName],
   if w.sdkDown then w
   else match w.lookupFn functionName with
     | some _ => { w with remote := w.remote.filter (fun p => !(p.1 == functionName)) }
     | none => w,
   if w.sdkDown then Except.error SdkErr.serviceError
   else match w.lookupFn functionName with
     | some _ => Except.ok ()
     | none => Except.error SdkErr.resourceNotFound)

def Client.update_function_code (w : World) (functionName bucket key : String) :
    List Event × World × Except SdkErr UpdateFunctionCodeResponse :=
  ([Event.clientUpdateFunctionCode functionName bucket key], w,
    if w.sdkDown then Except.error SdkErr.serviceError
    else match w.lookupFn functionName with
      | some _ => Except.ok { functionName := functionName }
      | none => Except.error SdkErr.resourceNotFound)

def Client.invoke (w : World) (functionName : String) :
    List Event × World × Except SdkErr Unit :=
  ([Event.clientInvoke functionName], w,
    if w.sdkDown then Except.error SdkErr.serviceError
    else match w.lookupFn functionName with
      | some _ => Except.ok ()
      | none => Except.error SdkErr.resourceNotFound)

def Client.list_functions (w : World) :
    List Event × World × Except SdkErr ListFunctionsResponse :=
  ([Event.clientListFunctions], w,
    if w.sdkDown then Except.error SdkErr.serviceError
    else Except.ok { functions := w.remote.map Prod.fst })

def Client.add_permission (w : World) (functionName statementId principal : String) :
    List Event × World × Except SdkErr AddPermissionResponse :=
  ([Event.clientAddPermission functionName statementId principal], w,
    if w.sdkDown then Except.error SdkErr.serviceError
    else match w.lookupFn functionName with
      | some _ => Except.ok { statement := some statementId }
      | none => Except.error SdkErr.resourceNotFound)

def Client.remove_permission (w : World) (functionName statementId : String) :
    List Event × World × Except SdkErr Unit :=
  ([Event.clientRemovePermission functionName statementId], w,
    if w.sdkDown then Except.error SdkErr.serviceError
    else match w.lookupFn functionName with
      | some _ => Except.ok ()
      | none => Except.error SdkErr.resourceNotFound)

/-- Modelled from the spec: `S3.upload_file` (src does not include
`lmdo/cmds/s3/s3.py`). Per spec section 4.2 it uploads the artifact and
returns a success boolean; SDK failures are logged and swallowed, never
raised to the caller. -/
def S3.upload_file (w : World) (bucket : String) (key : S3KeyArg) (path : String) :
    List Event × World × Bool :=
  ([Event.s3UploadFile bucket key path], w, w.uploadOk)

/-- Modelled from the spec: `IAM.create_role` (src does not include
`lmdo/cmds/iam/iam.py`). Per spec section 4.3 it creates a role with the
given trust policy and returns the created role; the source reads
`role.get('Role').get('RoleName')` from the response. -/
def IAM.create_role (w : World) (roleName policy : String) :
    List Event × World × String :=
  ([Event.iamCreateRole roleName], w, roleName)

/-- Modelled from the spec: `IAM.delete_role` (src does not include
`lmdo/cmds/iam/iam.py`). Per spec section 4.3 deletion is best-effort and
failures are logged only. -/
def IAM.delete_role (w : World) (role : String) :
    List Event × World × Unit :=
  ([Event.iamDeleteRole role], w, ())

/-- Modelled from the spec: the `zipper` utility of `lmdo.utils` (file not
under src/). It zips the source tree into `target` and reports success as a
boolean. -/
def zipper (w : World) (fromDir target : String) :
    List Event × World × Bool :=
  ([Event.localZip target], w, w.zipOk target)

/-- `os.remove`: raises `OSError` when the environment says so. -/
def osRemove (w : World) (target : String) :
    List Event × World × Except PyErr Unit :=
  ([Event.localRemoveZip target], w,
    if w.removeRaises then Except.error (PyErr.osError target) else Except.ok ())

/- ------------------------------------------------------------------
The `Lambda` class methods (src/lmdo/cmds/lm/lambda.py). Log lines through
`Oprint` are modelled from the spec as pure log events: per spec section 7,
failures are "caught at each call site, logged with context, and swallowed
(execution continues)", so `Oprint.err` logs and returns.
------------------------------------------------------------------ -/

/-- `Lambda.get_function_name` (lines 60-62): `"{}-{}".format(get_name_id(), func_name)`. -/
def Lambda.get_function_name (ctx : Ctx) (func_name : String) : String :=
  ctx.nameId ++ "-" ++ func_name

/-- `Lambda.get_role_name` (lines 64-66): `"lmdo-{}-{}".format(get_name_id(), func_name)`. -/
def Lambda.get_role_name (ctx : Ctx) (func_name : String) : String :=
  "lmdo-" ++ ctx.nameId ++ "-" ++ func_name

/-- `Lambda.get_zip_name` (lines 68-70): `"{}-{}.zip".format(get_name_id(), func_name)`. -/
def Lambda.get_zip_name (ctx : Ctx) (func_name : String) : String :=
  ctx.nameId ++ "-" ++ func_name ++ ".zip"

/-- `Lambda.get_statement_id` (lines 72-74):
`"stmt-{}-{}".format(get_function_name(func_name), principal_id)`. -/
def Lambda.get_statement_id (ctx : Ctx) (func_name principal_id : String) : String :=
  "stmt-" ++ Lambda.get_function_name ctx func_name ++ "-" ++ principal_id

/-- `Lambda.add_permission` (lines 76-92). The client call is tried; on
exception the error is logged and then line 89 references the unbound local
`response`, raising `UnboundLocalError`. On success, an info line is logged,
a missing `Statement` key is additionally error-logged, and the response is
returned. The FunctionName and StatementId passed to the client are the
prefixed ones. -/
def Lambda.add_permission (ctx : Ctx) (w : World)
    (func_name principal principal_id action : String) :
    Res AddPermissionResponse :=
  let c := Client.add_permission w (Lambda.get_function_name ctx func_name)
      (Lambda.get_statement_id ctx func_name principal_id) principal
  (c.1 ++ (match c.2.2 with
    | Except.ok response =>
        [Event.logInfo ("Permission " ++ action ++ " has been added for " ++
          Lambda.get_function_name ctx func_name ++ " with principal " ++ principal)] ++
        (if response.statement.isNone then
          [Event.logErr ("Create lambda permission " ++ action ++ " for " ++ principal)]
        else [])
    | Except.error e => [Event.logErr e.message]),
   c.2.1,
   match c.2.2 with
   | Except.ok response => Except.ok response
   | Except.error _ => Except.error (PyErr.unboundLocal "response"))

/-- `Lambda.remove_permission` (lines 94-105). Note the source passes the raw
`func_name` (not the prefixed name) as FunctionName to the client, while the
StatementId is built from the prefixed name; on client exception the error is
logged and then `return response` raises `UnboundLocalError`. -/
def Lambda.remove_permission (ctx : Ctx) (w : World)
    (func_name principal_id : String) : Res Unit :=
  let c := Client.remove_permission w func_name
      (Lambda.get_statement_id ctx func_name principal_id)
  (c.1 ++ (match c.2.2 with
    | Except.ok _ =>
        [Event.logInfo ("Permission has been removed for " ++
          Lambda.get_function_name ctx func_name)]
    | Except.error e => [Event.logErr e.message]),
   c.2.1,
   match c.2.2 with
   | Except.ok response => Except.ok response
   | Except.error _ => Except.error (PyErr.unboundLocal "response"))

/-- `Lambda.create_function` (lines 107-122): passes the prefixed function
name; on client exception logs and then `return response` raises
`UnboundLocalError`. -/
def Lambda.create_function (ctx : Ctx) (w : World)
    (func_name role handler code runtime : String) :
    Res CreateFunctionResponse :=
  let c := Client.create_function w (Lambda.get_function_name ctx func_name) role
  (c.1 ++ (match c.2.2 with
    | Except.ok _ =>
        [Event.logInfo ("Lambda function " ++ Lambda.get_function_name ctx func_name ++
          " has been created")]
    | Except.error e => [Event.logErr e.message]),
   c.2.1,
   match c.2.2 with
   | Except.ok response => Except.ok response
   | Except.error _ => Except.error (PyErr.unboundLocal "response"))

/-- `Lambda.delete_function` (lines 124-132): passes the prefixed function
name; on client exception logs and then `return response` raises
`UnboundLocalError`. -/
def Lambda.delete_function (ctx : Ctx) (w : World) (func_name : String) :
    Res Unit :=
  let c := Client.delete_function w (Lambda.get_function_name ctx func_name)
  (c.1 ++ (match c.2.2 with
    | Except.ok _ =>
        [Event.logInfo ("Lambda function " ++ Lambda.get_function_name ctx func_name ++
          " has been deleted")]
    | Except.error e => [Event.logErr e.message]),
   c.2.1,
   match c.2.2 with
   | Except.ok response => Except.ok response
   | Except.error _ => Except.error (PyErr.unboundLocal "response"))

/-- `Lambda.invoke` (lines 134-144): passes the prefixed function name; on
client exception logs and then `return response` raises `UnboundLocalError`. -/
def Lambda.invoke (ctx : Ctx) (w : World) (func_name : String) : Res Unit :=
  let c := Client.invoke w (Lambda.get_function_name ctx func_name)
  (c.1 ++ (match c.2.2 with
    | Except.ok _ => []
    | Except.error e => [Event.logErr e.message]),
   c.2.1,
   match c.2.2 with
   | Except.ok response => Except.ok response
   | Except.error _ => Except.error (PyErr.unboundLocal "response"))

/-- `Lambda.list_functions` (lines 146-153): on client exception logs and then
`return response` raises `UnboundLocalError`. -/
def Lambda.list_functions (ctx : Ctx) (w : World) : Res ListFunctionsResponse :=
  let c := Client.list_functions w
  (c.1 ++ (match c.2.2 with
    | Except.ok _ => []
    | Except.error e => [Event.logErr e.message]),
   c.2.1,
   match c.2.2 with
   | Except.ok response => Except.ok response
   | Except.error _ => Except.error (PyErr.unboundLocal "response"))

/-- `Lambda.update_function_code` (lines 155-167): passes the prefixed
function name and the string zip key; on client exception logs and then
`return response` raises `UnboundLocalError`. -/
def Lambda.update_function_code (ctx : Ctx) (w : World)
    (func_name bucket_name : String) : Res UpdateFunctionCodeResponse :=
  let c := Client.update_function_code w (Lambda.get_function_name ctx func_name)
      bucket_name (Lambda.get_zip_name ctx func_name)
  (c.1 ++ (match c.2.2 with
    | Except.ok _ =>
        [Event.logInfo ("Lambda function " ++ func_name ++ " has been updated")]
    | Except.error e => [Event.logErr e.message]),
   c.2.1,
   match c.2.2 with
   | Except.ok response => Except.ok response
   | Except.error _ => Except.error (PyErr.unboundLocal "response"))

/-- `Lambda.get_function` (lines 173-180). Note the source passes the raw
`func_name`, not the prefixed name, to the client. On success it returns the
response if it has a `Configuration` key, else `False` (here `none`); on
client exception it logs and then the return expression
`response if response.get('Configuration') else False` references the unbound
local `response`, raising `UnboundLocalError`. -/
def Lambda.get_function (ctx : Ctx) (w : World) (func_name : String) :
    Res (Option GetFunctionResponse) :=
  let c := Client.get_function w func_name
  (c.1 ++ (match c.2.2 with
    | Except.ok _ => []
    | Except.error e => [Event.logErr e.message]),
   c.2.1,
   match c.2.2 with
   | Except.ok response =>
       if response.configuration.isSome then Except.ok (some response)
       else Except.ok none
   | Except.error _ => Except.error (PyErr.unboundLocal "response"))

/-- `Lambda.zip_function` (lines 182-188): zips the working tree into
`TMP_DIR + zip name` and returns the target path, or `False` (here `none`)
when zipping fails. -/
def Lambda.zip_function (ctx : Ctx) (w : World) (func_name : String) :
    List Event × World × Option String :=
  let target := TMP_DIR ++ Lambda.get_zip_name ctx func_name
  let z := zipper w "./" target
  if z.2.2 then (z.1, z.2.1, some target) else (z.1, z.2.1, none)

/-- `Lambda.remove_zip` (lines 190-196): removes the local package; `OSError`
is caught and ignored (`except OSError: pass`), so the method always returns
normally. -/
def Lambda.remove_zip (ctx : Ctx) (w : World) (func_name : String) :
    List Event × World × Unit :=
  let target := TMP_DIR ++ Lambda.get_zip_name ctx func_name
  let o := osRemove w target
  (o.1, o.2.1, ())

/-- `Lambda.create_role` (lines 239-245): opens the policy document (a
`TypeError` for a `None` path and an `IOError` for a missing file propagate),
creates the role through IAM, and returns the role name read from the
response. -/
def Lambda.create_role (ctx : Ctx) (w : World) (role_name : String)
    (policy_path : Option String) : Res String :=
  match policy_path with
  | none => ([], w, Except.error (PyErr.typeError "open() argument must not be None"))
  | some p =>
    match w.policyFiles p with
    | none => ([], w, Except.error (PyErr.ioError p))
    | some policy =>
      let r := IAM.create_role w role_name policy
      (r.1, r.2.1, Except.ok r.2.2)

/-- `Lambda.delete_role` (lines 247-249): delegates to IAM. -/
def Lambda.delete_role (ctx : Ctx) (w : World) (role : String) :
    List Event × World × Unit :=
  IAM.delete_role w role

/-- The `params` dict built at lines 207-221 of `Lambda.process`. -/
structure CreateParams where
  FunctionName : String
  S3Bucket : String
  Handler : String
  MemorySize : Nat
  Runtime : String
  Timeout : Nat
  Description : String
  VpcConfig : Option String
  Environment : Option (List (String × String))
  Role : Option String
deriving DecidableEq, Repr

/-- The `TypeError` raised by `self.create_function(**params)` at line 235:
the keys of `params` (FunctionName, S3Bucket, ...) do not match the wrapper's
positional parameters (func_name, role, handler, code, runtime), so Python
fails to bind the call before any remote operation happens. -/
def createFunctionBindError : PyErr :=
  PyErr.typeError "create_function() missing required positional arguments"

/-- Loop body of `Lambda.process` (lines 206-237) for one spec: build
`params`, clean any stale package, zip, and if both the zip and the upload
succeed, probe existence with the raw FunctionName and branch update/create.
Uncaught exceptions (an `Except.error`) abort the pass, skipping the final
clean-up. The upload key argument is the un-called bound method
`self.get_zip_name` (line 227). -/
def Lambda.processSpec (ctx : Ctx) (w : World) (lm : FunctionSpec) : Res Unit :=
  let params : CreateParams := {
    FunctionName := Lambda.get_function_name ctx lm.FunctionName,
    S3Bucket := lm.S3Bucket,
    Handler := lm.Handler,
    MemorySize := pyOrNat lm.MemorySize LAMBDA_MEMORY_SIZE,
    Runtime := pyOrStr lm.Runtime LAMBDA_RUNTIME,
    Timeout := pyOrNat lm.Timeout LAMBDA_TIMEOUT,
    Description := "Function deployed for service " ++ pyStrOpt ctx.config.service ++ " by lmdo",
    VpcConfig := if pyTruthyOptStr lm.VpcConfig then lm.VpcConfig else none,
    Environment := match lm.EnvironmentVariables with
      | some vs => if vs.isEmpty then none else some vs
      | none => none,
    Role := none }
  let r1 := Lambda.remove_zip ctx w lm.FunctionName
  let z := Lambda.zip_function ctx r1.2.1 lm.FunctionName
  match z.2.2 with
  | none =>
      let r3 := Lambda.remove_zip ctx z.2.1 lm.FunctionName
      (r1.1 ++ z.1 ++ r3.1, r3.2.1, Except.ok ())
  | some path =>
    let up := S3.upload_file z.2.1 lm.S3Bucket S3KeyArg.boundMethod path
    if up.2.2 then
      let g := Lambda.get_function ctx up.2.1 lm.FunctionName
      match g.2.2 with
      | Except.error e => (r1.1 ++ z.1 ++ up.1 ++ g.1, g.2.1, Except.error e)
      | Except.ok info =>
        if info.isSome then
          let u := Lambda.update_function_code ctx g.2.1 lm.FunctionName lm.S3Bucket
          match u.2.2 with
          | Except.error e =>
              (r1.1 ++ z.1 ++ up.1 ++ g.1 ++ u.1, u.2.1, Except.error e)
          | Except.ok _ =>
              let r3 := Lambda.remove_zip ctx u.2.1 lm.FunctionName
              (r1.1 ++ z.1 ++ up.1 ++ g.1 ++ u.1 ++ r3.1, r3.2.1, Except.ok ())
        else
          if pyTruthyOptStr lm.Role then
            (r1.1 ++ z.1 ++ up.1 ++ g.1, g.2.1,
             Except.error createFunctionBindError)
          else
            let cr := Lambda.create_role ctx g.2.1
                (Lambda.get_role_name ctx lm.FunctionName) lm.RolePolicyDocument
            match cr.2.2 with
            | Except.error e =>
                (r1.1 ++ z.1 ++ up.1 ++ g.1 ++ cr.1, cr.2.1, Except.error e)
            | Except.ok _role =>
                (r1.1 ++ z.1 ++ up.1 ++ g.1 ++ cr.1, cr.2.1,
                 Except.error createFunctionBindError)
    else
      let r3 := Lambda.remove_zip ctx up.2.1 lm.FunctionName
      (r1.1 ++ z.1 ++ up.1 ++ r3.1, r3.2.1, Except.ok ())

/-- The `for lm in self._config.get('Lambda')` loop of `Lambda.process`: specs
are processed in order; an uncaught exception aborts the remaining specs. -/
def Lambda.processList (ctx : Ctx) (w : World) : List FunctionSpec → Res Unit
  | [] => ([], w, Except.ok ())
  | lm :: rest =>
    let r := Lambda.processSpec ctx w lm
    match r.2.2 with
    | Except.error e => (r.1, r.2.1, Except.error e)
    | Except.ok _ =>
      let r2 := Lambda.processList ctx r.2.1 rest
      (r.1 ++ r2.1, r2.2.1, r2.2.2)

/-- `Lambda.process` (lines 198-237): with no `Lambda` key or an empty list
the guard `if !self._config.get('Lambda')` (read as `if not ...`) logs and
returns `True`; otherwise the loop runs and the method falls off the end,
returning `None`. -/
def Lambda.process (ctx : Ctx) (w : World) : Res (Option Bool) :=
  match ctx.config.lambdaSpecs with
  | none => ([Event.logInfo "No Lambda function configured, skip..."], w, Except.ok (some true))
  | some [] => ([Event.logInfo "No Lambda function configured, skip..."], w, Except.ok (some true))
  | some specs =>
    let r := Lambda.processList ctx w specs
    (r.1, r.2.1,
     match r.2.2 with
     | Except.error e => Except.error e
     | Except.ok _ => Except.ok none)

/-- Loop body of `Lambda.delete` (lines 47-54) for one spec: fetch the
function info with the raw FunctionName, delete the function (prefixed name),
and when the spec has no explicit Role, read `info.get('Configuration')
.get('Role')` and delete that role. `info` being `False` (the not-found
signal) would make `.get` raise `AttributeError`. -/
def Lambda.deleteSpec (ctx : Ctx) (w : World) (lm : FunctionSpec) : Res Unit :=
  let g := Lambda.get_function ctx w lm.FunctionName
  match g.2.2 with
  | Except.error e => (g.1, g.2.1, Except.error e)
  | Except.ok info =>
    let d := Lambda.delete_function ctx g.2.1 lm.FunctionName
    match d.2.2 with
    | Except.error e => (g.1 ++ d.1, d.2.1, Except.error e)
    | Except.ok _ =>
      if !(pyTruthyOptStr lm.Role) then
        match info with
        | none =>
            (g.1 ++ d.1, d.2.1,
             Except.error (PyErr.attributeError "bool object has no attribute get"))
        | some resp =>
          match resp.configuration with
          | none =>
              (g.1 ++ d.1, d.2.1,
               Except.error (PyErr.attributeError "NoneType object has no attribute get"))
          | some conf =>
            let dr := Lambda.delete_role ctx d.2.1 conf.role
            (g.1 ++ d.1 ++ dr.1, dr.2.1, Except.ok ())
      else (g.1 ++ d.1, d.2.1, Except.ok ())

/-- The `for lm in self._config.get('Lambda')` loop of `Lambda.delete`. -/
def Lambda.deleteList (ctx : Ctx) (w : World) : List FunctionSpec → Res Unit
  | [] => ([], w, Except.ok ())
  | lm :: rest =>
    let r := Lambda.deleteSpec ctx w lm
    match r.2.2 with
    | Except.error e => (r.1, r.2.1, Except.error e)
    | Except.ok _ =>
      let r2 := Lambda.deleteList ctx r.2.1 rest
      (r.1 ++ r2.1, r2.2.1, r2.2.2)

/-- `Lambda.delete` (lines 39-54): with no `Lambda` key or an empty list the
guard logs and returns `True`; otherwise the loop runs and the method falls
off the end, returning `None`. -/
def Lambda.delete (ctx : Ctx) (w : World) : Res (Option Bool) :=
  match ctx.config.lambdaSpecs with
  | none => ([Event.logInfo "No Lambda function configured, skip"], w, Except.ok (some true))
  | some [] => ([Event.logInfo "No Lambda function configured, skip"], w, Except.ok (some true))
  | some specs =>
    let r := Lambda.deleteList ctx w specs
    (r.1, r.2.1,
     match r.2.2 with
     | Except.error e => Except.error e
     | Except.ok _ => Except.ok none)

/- ------------------------------------------------------------------
Concrete fixtures used to evaluate the claims.
------------------------------------------------------------------ -/

/-- One configured function (`FunctionName: hello`), no explicit Role, with a
policy-document path, as in the spec's worked example. -/
def demoSpec : FunctionSpec := {
  FunctionName := "hello", S3Bucket := "bkt", Handler := "main.handler",
  MemorySize := none, Runtime := none, Timeout := none, VpcConfig := none,
  EnvironmentVariables := none, Role := none, RolePolicyDocument := some "policy.json" }

/-- A configuration holding exactly `demoSpec`. -/
def demoCfg : Config := { lambdaSpecs := some [demoSpec], service := some "svc" }

/-- Project id `demo`, as in the spec's worked example. -/
def demoCtx : Ctx := { nameId := "demo", config := demoCfg }

/-- A healthy environment with no functions deployed yet: SDK up, zipping and
uploading succeed, the policy document exists. -/
def freshWorld : World := {
  remote := [], sdkDown := false, zipOk := fun _ => true, uploadOk := true,
  removeRaises := false, policyFiles := fun _ => some "policydoc" }

/-- The environment after `demo-hello` has been deployed under its prefixed
name, the state a second deploy or a destroy runs against. -/
def deployedWorld : World :=
  { freshWorld with remote := [("demo-hello", { role := "lmdo-demo-hello" })] }

/-- A world in which the packaging (zip) step fails. -/
def zipFailWorld : World := { freshWorld with zipOk := fun _ => false }

/- ------------------------------------------------------------------
Claims.
------------------------------------------------------------------ -/

/-- Claim C1, evaluated at the failing input (project id `demo`, one spec
`hello` with no explicit Role, remote holding no functions, zip and upload
succeeding): the claim says deploy resolves a role and calls create-function
for a spec whose function does not exist; instead the existence probe
`get_function` raises `UnboundLocalError` (the SDK's not-found exception is
logged, then the unset `response` local is referenced at line 180), so the
pass aborts with no create-function and no role creation. -/
theorem c1_deploy_absent_function_crashes_before_create :
    resVal (Lambda.process demoCtx freshWorld) = Except.error (PyErr.unboundLocal "response")
    ∧ (resEvents (Lambda.process demoCtx freshWorld)).filter Event.isClientCreateFunction = []
    ∧ (resEvents (Lambda.process demoCtx freshWorld)).filter Event.isIamCreateRole = []
    ∧ resEvents (Lambda.process demoCtx freshWorld) =
        [Event.localRemoveZip "/tmp/demo-hello.zip",
         Event.localZip "/tmp/demo-hello.zip",
         Event.s3UploadFile "bkt" S3KeyArg.boundMethod "/tmp/demo-hello.zip",
         Event.clientGetFunction "hello",
         Event.logErr "ResourceNotFoundException"] := by
  refine ⟨rfl, rfl, rfl, rfl⟩

/-- Claim C2, counterexample: with the SDK raising, `invoke` does not return
the possibly-undefined response to the caller; referencing the unset
`response` local at `return response` raises `UnboundLocalError`, so the
caller receives an exception, not a returned value. -/
theorem c2_counterexample_invoke_raises_instead_of_returning :
    resVal (Lambda.invoke demoCtx { freshWorld with sdkDown := true } "hello")
      = Except.error (PyErr.unboundLocal "response") := rfl

/-- Claim C2 as amended: for every remote-API wrapper method, when the
underlying SDK call raises, the exception is caught and logged and is not
re-raised; but the wrapper then references the unset `response` local, so it
raises `UnboundLocalError` to the caller instead of returning a value. -/
theorem c2_amended_wrappers_log_then_raise_unbound_local
    (ctx : Ctx) (w : World)
    (f principal pid action role handler code runtime bucket : String) :
    Lambda.add_permission ctx { w with sdkDown := true } f principal pid action =
      ([Event.clientAddPermission (Lambda.get_function_name ctx f)
          (Lambda.get_statement_id ctx f pid) principal,
        Event.logErr "ServiceException"],
       { w with sdkDown := true }, Except.error (PyErr.unboundLocal "response"))
    ∧ Lambda.remove_permission ctx { w with sdkDown := true } f pid =
      ([Event.clientRemovePermission f (Lambda.get_statement_id ctx f pid),
        Event.logErr "ServiceException"],
       { w with sdkDown := true }, Except.error (PyErr.unboundLocal "response"))
    ∧ Lambda.create_function ctx { w with sdkDown := true } f role handler code runtime =
      ([Event.clientCreateFunction (Lambda.get_function_name ctx f),
        Event.logErr "ServiceException"],
       { w with sdkDown := true }, Except.error (PyErr.unboundLocal "response"))
    ∧ Lambda.delete_function ctx { w with sdkDown := true } f =
      ([Event.clientDeleteFunction (Lambda.get_function_name ctx f),
        Event.logErr "ServiceException"],
       { w with sdkDown := true }, Except.error (PyErr.unboundLocal "response"))
    ∧ Lambda.invoke ctx { w with sdkDown := true } f =
      ([Event.clientInvoke (Lambda.get_function_name ctx f),
        Event.logErr "ServiceException"],
       { w with sdkDown := true }, Except.error (PyErr.unboundLocal "response"))
    ∧ Lambda.list_functions ctx { w with sdkDown := true } =
      ([Event.clientListFunctions, Event.logErr "ServiceException"],
       { w with sdkDown := true }, Except.error (PyErr.unboundLocal "response"))
    ∧ Lambda.update_function_code ctx { w with sdkDown := true } f bucket =
      ([Event.clientUpdateFunctionCode (Lambda.get_function_name ctx f) bucket
          (Lambda.get_zip_name ctx f),
        Event.logErr "ServiceException"],
       { w with sdkDown := true }, Except.error (PyErr.unboundLocal "response"))
    ∧ Lambda.get_function ctx { w with sdkDown := true } f =
      ([Event.clientGetFunction f, Event.logErr "ServiceException"],
       { w with sdkDown := true }, Except.error (PyErr.unboundLocal "response")) :=
  ⟨rfl, rfl, rfl, rfl, rfl, rfl, rfl, rfl⟩

/-- Claim C3, evaluated at the failing input: after a normal deployment the
remote holds only the prefixed name `demo-hello`, so destroy's probe (which
passes the raw name `hello`) hits not-found and raises `UnboundLocalError`;
destroy deletes neither the function nor any role, and deploy from a fresh
remote never creates a role either (its own probe crashes first). -/
theorem c3_role_lifecycle_unreachable :
    resVal (Lambda.delete demoCtx deployedWorld) = Except.error (PyErr.unboundLocal "response")
    ∧ (resEvents (Lambda.delete demoCtx deployedWorld)).filter Event.isIamDeleteRole = []
    ∧ (resEvents (Lambda.delete demoCtx deployedWorld)).filter Event.isClientDeleteFunction = []
    ∧ (resEvents (Lambda.process demoCtx freshWorld)).filter Event.isIamCreateRole = [] := by
  refine ⟨rfl, rfl, rfl, rfl⟩

/-- Claim C4: the name-construction helpers produce exactly the documented
templates, both schematically and on the spec's worked example
(`demo` / `hello`). -/
theorem c4_naming_templates (ctx : Ctx) (f principal_id : String) :
    Lambda.get_function_name ctx f = ctx.nameId ++ "-" ++ f
    ∧ Lambda.get_role_name ctx f = "lmdo-" ++ ctx.nameId ++ "-" ++ f
    ∧ Lambda.get_zip_name ctx f = ctx.nameId ++ "-" ++ f ++ ".zip"
    ∧ Lambda.get_statement_id ctx f principal_id =
        "stmt-" ++ (ctx.nameId ++ "-" ++ f) ++ "-" ++ principal_id
    ∧ Lambda.get_function_name demoCtx "hello" = "demo-hello"
    ∧ Lambda.get_role_name demoCtx "hello" = "lmdo-demo-hello"
    ∧ Lambda.get_zip_name demoCtx "hello" = "demo-hello.zip"
    ∧ Lambda.get_statement_id demoCtx "hello" "api" = "stmt-demo-hello-api" :=
  ⟨rfl, rfl, rfl, rfl, by decide, by decide, by decide, by decide⟩

/-- Claim C5, evaluated at the failing input: the deploy pass uploads the
artifact, but the key argument it hands the uploader is the un-called bound
method `self.get_zip_name` (line 227 lacks the call parentheses), not the
documented string key `demo-hello.zip`; no upload with a string key occurs. -/
theorem c5_upload_key_is_bound_method_not_zip_name :
    Event.s3UploadFile "bkt" S3KeyArg.boundMethod "/tmp/demo-hello.zip"
        ∈ resEvents (Lambda.process demoCtx freshWorld)
    ∧ (resEvents (Lambda.process demoCtx freshWorld)).filter Event.isS3UploadWithStringKey = []
    ∧ S3KeyArg.boundMethod ≠ S3KeyArg.str (Lambda.get_zip_name demoCtx "hello") := by
  refine ⟨by decide, rfl, by decide⟩

/-- Claim C6: for a spec whose zip step fails, the deploy pass performs no
remote call at all (no upload, no existence probe, no create or update), it
returns normally, and the temporary-artifact removal is attempted both before
zipping and afterwards; since the hypotheses leave `removeRaises` free, the
conclusion holds whether or not the removal itself fails, i.e. removal
failures are silently ignored. -/
theorem c6_zip_failure_skips_upload_and_deploy
    (ctx : Ctx) (w : World) (lm : FunctionSpec)
    (h : w.zipOk (TMP_DIR ++ Lambda.get_zip_name ctx lm.FunctionName) = false) :
    Lambda.processSpec ctx w lm =
      ([Event.localRemoveZip (TMP_DIR ++ Lambda.get_zip_name ctx lm.FunctionName),
        Event.localZip (TMP_DIR ++ Lambda.get_zip_name ctx lm.FunctionName),
        Event.localRemoveZip (TMP_DIR ++ Lambda.get_zip_name ctx lm.FunctionName)],
       w, Except.ok ())
    ∧ (resEvents (Lambda.processSpec ctx w lm)).filter Event.isRemoteCall = [] := by
  have h1 : Lambda.processSpec ctx w lm =
      ([Event.localRemoveZip (TMP_DIR ++ Lambda.get_zip_name ctx lm.FunctionName),
        Event.localZip (TMP_DIR ++ Lambda.get_zip_name ctx lm.FunctionName),
        Event.localRemoveZip (TMP_DIR ++ Lambda.get_zip_name ctx lm.FunctionName)],
       w, Except.ok ()) := by
    simp [Lambda.processSpec, Lambda.remove_zip, Lambda.zip_function, zipper, osRemove, h]
  refine ⟨h1, ?_⟩
  simp [resEvents, h1, Event.isRemoteCall]

/-- Witness for C6 at the concrete fixture: the demo spec in a world whose
zip step fails. -/
theorem c6_witness :
    Lambda.processSpec demoCtx zipFailWorld demoSpec =
      ([Event.localRemoveZip (TMP_DIR ++ Lambda.get_zip_name demoCtx demoSpec.FunctionName),
        Event.localZip (TMP_DIR ++ Lambda.get_zip_name demoCtx demoSpec.FunctionName),
        Event.localRemoveZip (TMP_DIR ++ Lambda.get_zip_name demoCtx demoSpec.FunctionName)],
       zipFailWorld, Except.ok ())
    ∧ (resEvents (Lambda.processSpec demoCtx zipFailWorld demoSpec)).filter
        Event.isRemoteCall = [] :=
  c6_zip_failure_skips_upload_and_deploy demoCtx zipFailWorld demoSpec rfl

/-- Claim C7: with the `Lambda` configuration key absent or holding an empty
list, both the deploy pass and destroy log an informational line, perform
zero remote API calls, and return `True`. -/
theorem c7_empty_or_absent_config_is_noop (nid : String) (svc : Option String) (w : World) :
    Lambda.process ⟨nid, ⟨none, svc⟩⟩ w =
      ([Event.logInfo "No Lambda function configured, skip..."], w, Except.ok (some true))
    ∧ Lambda.process ⟨nid, ⟨some [], svc⟩⟩ w =
      ([Event.logInfo "No Lambda function configured, skip..."], w, Except.ok (some true))
    ∧ Lambda.delete ⟨nid, ⟨none, svc⟩⟩ w =
      ([Event.logInfo "No Lambda function configured, skip"], w, Except.ok (some true))
    ∧ Lambda.delete ⟨nid, ⟨some [], svc⟩⟩ w =
      ([Event.logInfo "No Lambda function configured, skip"], w, Except.ok (some true))
    ∧ (resEvents (Lambda.process ⟨nid, ⟨none, svc⟩⟩ w)).filter Event.isRemoteCall = []
    ∧ (resEvents (Lambda.process ⟨nid, ⟨some [], svc⟩⟩ w)).filter Event.isRemoteCall = []
    ∧ (resEvents (Lambda.delete ⟨nid, ⟨none, svc⟩⟩ w)).filter Event.isRemoteCall = []
    ∧ (resEvents (Lambda.delete ⟨nid, ⟨some [], svc⟩⟩ w)).filter Event.isRemoteCall = [] :=
  ⟨rfl, rfl, rfl, rfl, rfl, rfl, rfl, rfl⟩

/-- Claim C8, counterexample: at project id `demo` and function `hello`, the
existence probe and `remove_permission` pass the raw name `hello` to the
remote API, while `create_function` passes the prefixed `demo-hello` — they
are not the same name. -/
theorem c8_counterexample_probe_and_remove_permission_unprefixed :
    (resEvents (Lambda.get_function demoCtx deployedWorld "hello")).head?
        = some (Event.clientGetFunction "hello")
    ∧ (resEvents (Lambda.remove_permission demoCtx deployedWorld "hello" "api")).head?
        = some (Event.clientRemovePermission "hello" "stmt-demo-hello-api")
    ∧ (resEvents (Lambda.create_function demoCtx deployedWorld "hello" "r" "h" "c" "rt")).head?
        = some (Event.clientCreateFunction "demo-hello")
    ∧ ("hello" : String) ≠ "demo-hello" := by
  refine ⟨rfl, rfl, rfl, by decide⟩

/-- Claim C8 as amended: `add_permission`, `create_function`,
`delete_function`, `invoke` and `update_function_code` pass the
prefix-translated function name to the remote API, and the statement ids are
prefix-translated; but `get_function` and `remove_permission` pass the raw
`func_name` unprefixed. -/
theorem c8_amended_wrapper_names
    (ctx : Ctx) (w : World)
    (f principal pid action role handler code runtime bucket : String) :
    (resEvents (Lambda.add_permission ctx w f principal pid action)).head?
        = some (Event.clientAddPermission (Lambda.get_function_name ctx f)
            (Lambda.get_statement_id ctx f pid) principal)
    ∧ (resEvents (Lambda.create_function ctx w f role handler code runtime)).head?
        = some (Event.clientCreateFunction (Lambda.get_function_name ctx f))
    ∧ (resEvents (Lambda.delete_function ctx w f)).head?
        = some (Event.clientDeleteFunction (Lambda.get_function_name ctx f))
    ∧ (resEvents (Lambda.invoke ctx w f)).head?
        = some (Event.clientInvoke (Lambda.get_function_name ctx f))
    ∧ (resEvents (Lambda.update_function_code ctx w f bucket)).head?
        = some (Event.clientUpdateFunctionCode (Lambda.get_function_name ctx f)
            bucket (Lambda.get_zip_name ctx f))
    ∧ (resEvents (Lambda.list_functions ctx w)).head? = some Event.clientListFunctions
    ∧ (resEvents (Lambda.get_function ctx w f)).head?
        = some (Event.clientGetFunction f)
    ∧ (resEvents (Lambda.remove_permission ctx w f pid)).head?
        = some (Event.clientRemovePermission f (Lambda.get_statement_id ctx f pid)) :=
  ⟨rfl, rfl, rfl, rfl, rfl, rfl, rfl, rfl⟩

/-- Claim C9, evaluated at the failing input: deploy from a fresh remote
crashes in the existence probe before creating anything (and leaves the
remote unchanged), so a second identical run crashes the same way; and even
against a remote already holding the deployed `demo-hello`, the pass crashes
without ever taking the update-function-code branch, because the probe asks
for the unprefixed name. -/
theorem c9_redeploy_crashes_instead_of_updating :
    resVal (Lambda.process demoCtx freshWorld) = Except.error (PyErr.unboundLocal "response")
    ∧ (resEvents (Lambda.process demoCtx freshWorld)).filter Event.isClientCreateFunction = []
    ∧ (resEvents (Lambda.process demoCtx freshWorld)).filter Event.isClientUpdateFunctionCode = []
    ∧ resWorld (Lambda.process demoCtx freshWorld) = freshWorld
    ∧ resVal (Lambda.process demoCtx (resWorld (Lambda.process demoCtx freshWorld)))
        = Except.error (PyErr.unboundLocal "response")
    ∧ resVal (Lambda.process demoCtx deployedWorld) = Except.error (PyErr.unboundLocal "response")
    ∧ (resEvents (Lambda.process demoCtx deployedWorld)).filter
        Event.isClientUpdateFunctionCode = [] := by
  refine ⟨rfl, rfl, rfl, rfl, rfl, rfl, rfl⟩

/-- Claim C10, counterexample: for the no-Role spec `hello` with no remote
function, `get_function` does not return the not-found signal `False`; it
raises `UnboundLocalError` itself, so destroy aborts inside the probe —
before `delete_function` and before any `.get('Configuration')` on a `False`
value (no `AttributeError` is ever raised). -/
theorem c10_counterexample_probe_raises_before_false_is_returned :
    resVal (Lambda.get_function demoCtx freshWorld "hello") ≠ Except.ok none
    ∧ resVal (Lambda.get_function demoCtx freshWorld "hello")
        = Except.error (PyErr.unboundLocal "response")
    ∧ resVal (Lambda.delete demoCtx freshWorld) = Except.error (PyErr.unboundLocal "response")
    ∧ (resEvents (Lambda.delete demoCtx freshWorld)).filter Event.isClientDeleteFunction = []
    ∧ resVal (Lambda.delete demoCtx freshWorld)
        ≠ Except.error (PyErr.attributeError "bool object has no attribute get") := by
  refine ⟨by decide, rfl, rfl, rfl, by decide⟩

/-- Claim C10 as amended: for a spec with no explicit Role whose function
does not exist remotely, destroy raises rather than completing, but the error
arises inside `get_function` itself: the SDK's not-found exception is caught
and logged, then the unset `response` local is referenced, raising
`UnboundLocalError`; destroy aborts before deleting the function and the
role-deletion step is never reached (neither performed, skipped, nor
logged). -/
theorem c10_amended_destroy_crashes_inside_probe
    (nid : String) (svc : Option String) (w : World) (lm : FunctionSpec)
    (hrole : lm.Role = none) (habsent : w.lookupFn lm.FunctionName = none)
    (hup : w.sdkDown = false) :
    Lambda.delete ⟨nid, ⟨some [lm], svc⟩⟩ w =
      ([Event.clientGetFunction lm.FunctionName, Event.logErr "ResourceNotFoundException"],
       w, Except.error (PyErr.unboundLocal "response"))
    ∧ (resEvents (Lambda.delete ⟨nid, ⟨some [lm], svc⟩⟩ w)).filter Event.isIamDeleteRole = [] := by
  have h1 : Lambda.delete ⟨nid, ⟨some [lm], svc⟩⟩ w =
      ([Event.clientGetFunction lm.FunctionName, Event.logErr "ResourceNotFoundException"],
       w, Except.error (PyErr.unboundLocal "response")) := by
    simp [Lambda.delete, Lambda.deleteList, Lambda.deleteSpec, Lambda.get_function,
      Client.get_function, hup, habsent, SdkErr.message]
  refine ⟨h1, ?_⟩
  simp [resEvents, h1, Event.isIamDeleteRole]

/-- Witness for the amended C10 at the concrete fixture: the demo spec (no
explicit Role) against a remote with no functions. -/
theorem c10_witness :
    Lambda.delete ⟨"demo", ⟨some [demoSpec], some "svc"⟩⟩ freshWorld =
      ([Event.clientGetFunction demoSpec.FunctionName, Event.logErr "ResourceNotFoundException"],
       freshWorld, Except.error (PyErr.unboundLocal "response"))
    ∧ (resEvents (Lambda.delete ⟨"demo", ⟨some [demoSpec], some "svc"⟩⟩ freshWorld)).filter
        Event.isIamDeleteRole = [] :=
  c10_amended_destroy_crashes_inside_probe "demo" (some "svc") freshWorld demoSpec rfl rfl rfl

end Lmdo
